import Mathlib

set_option autoImplicit false
set_option maxRecDepth 100000

namespace Aligner

/-- Values stored in a Python-style record dict: strings or integers
(the only value shapes `prod_workflow.py` reads or writes). -/
inductive Val where
  | str (s : String)
  | int (n : Int)
deriving DecidableEq

/-- Python `str()` / f-string rendering of a value. -/
def Val.render : Val → String
  | .str s => s
  | .int n => toString n

/-- Python truthiness of a value: the empty string and 0 are falsy. -/
def Val.truthy : Val → Bool
  | .str s => !(s == "")
  | .int n => !(n == 0)

/-- Truthiness of an optional value (Python `None` is falsy). -/
def optTruthy : Option Val → Bool
  | none => false
  | some v => v.truthy

/-- Truthiness of an `Optional[str]` argument (None and "" are falsy). -/
def optStrTruthy : Option String → Bool
  | none => false
  | some s => !(s == "")

/-- A record dict, modelled as an association list; the first binding of a
key is the binding (Python dicts never hold a key twice). -/
abbrev Dict := List (String × Val)

/-- Python `d.get(k)`. -/
def dictGet (d : Dict) (k : String) : Option Val :=
  match d with
  | [] => none
  | (k2, v) :: rest => if k2 = k then some v else dictGet rest k

/-- Python `d.get(k, dflt)`. -/
def dictGetD (d : Dict) (k : String) (dflt : Val) : Val :=
  (dictGet d k).getD dflt

/-- Python `d[k] = v`: replace the first binding in place, else append. -/
def dictSet (d : Dict) (k : String) (v : Val) : Dict :=
  match d with
  | [] => [(k, v)]
  | (k2, v2) :: rest => if k2 = k then (k2, v) :: rest else (k2, v2) :: dictSet rest k v

/-- Is the first char list a prefix of the second? -/
def isPrefixL : List Char → List Char → Bool
  | [], _ => true
  | _ :: _, [] => false
  | a :: n, b :: h => a == b && isPrefixL n h

/-- Python substring test `needle in hay`, on char lists. -/
def isInfixL (n : List Char) : List Char → Bool
  | [] => isPrefixL n []
  | b :: t => isPrefixL n (b :: t) || isInfixL n t

/-- Python `needle in hay` substring containment on strings. -/
def strContains (hay needle : String) : Bool :=
  isInfixL needle.data hay.data

/-- ASCII lowercasing of one character, as Python `str.lower()` does on the
ASCII range (the only characters the workflow compares). -/
def lowerChar (c : Char) : Char :=
  if 65 ≤ c.toNat && c.toNat ≤ 90 then Char.ofNat (c.toNat + 32) else c

/-- Python `s.lower()`. -/
def lowerStr (s : String) : String :=
  ⟨s.data.map lowerChar⟩

/-- Is this character whitespace for Python `str.strip()`? -/
def isSpaceChar (c : Char) : Bool :=
  c == ' ' || c == '\t' || c == '\n' || c == '\r' || c == '\x0b' || c == '\x0c'

/-- Drop leading whitespace of a char list. -/
def dropSpaces : List Char → List Char
  | [] => []
  | c :: t => if isSpaceChar c then dropSpaces t else c :: t

/-- Python `s.strip()`: remove leading and trailing whitespace. -/
def stripStr (s : String) : String :=
  ⟨(dropSpaces ((dropSpaces s.data).reverse)).reverse⟩

/-- One entry of `messages_to_send`: the `recipient_id` may be a value read
from the case dict (possibly absent, hence optional). -/
structure Message where
  recipient_id : Option Val
  content : String
deriving DecidableEq

/-- The mutable state the Python handlers share through in-place mutation:
the (copied) case dict, the (copied) session dict, the outbound message
list and the next-action list. -/
structure Ctx where
  case_data : Dict
  session : Dict
  messages : List Message
  next_actions : List String
deriving DecidableEq

/-- What a handler returns together with the mutated state: the `status`
string and the optional `error` string of its result dict. -/
structure HOut where
  ctx : Ctx
  status : String
  error : Option String
deriving DecidableEq

/-- Message text of the `ApprovedForProduction` production step. -/
def planningStartedMsg (pn : String) : String :=
  "Dear Doctor, planning for patient \x27" ++ pn ++ "\x27 has started. We\x27ll keep you updated on the progress."

/-- Message text of the `CasePlanningComplete` production step. -/
def trainingDispatchedMsg (pn : String) : String :=
  "Dear Doctor,\n\nThe training aligner for patient \x27" ++ pn ++ "\x27 has been dispatched. Estimated delivery: 2-3 business days.\n\nWe will notify you upon delivery. You can also reply here for a status update."

/-- Message text of the `FitConfirmed_PhaseWise` production step. -/
def phaseProductionMsg (pn : String) : String :=
  "Thank you for confirming the fit! The first phase of aligners for \x27" ++ pn ++ "\x27 is being prepared for dispatch. Expected delivery: 5-7 business days."

/-- Message text of the `FitConfirmed_FullCase` production step. -/
def fullProductionMsg (pn : String) : String :=
  "Thank you for confirming the fit! The full set of aligners for \x27" ++ pn ++ "\x27 is being prepared for dispatch. Expected delivery: 7-10 business days."

/-- Fit-check prompt emitted when delivery is confirmed. -/
def fitCheckPromptMsg (pn : String) : String :=
  "Great news! Our records show the training aligner for " ++ pn ++ " has been delivered.\n\nPlease check the fit and let us know: Does the aligner fit correctly? (Yes/No)"

/-- Echo of the current delivery status when not yet delivered. -/
def deliveryEchoMsg (pn ds : String) : String :=
  "Hi Doctor! The current status for the aligner for " ++ pn ++ " is: " ++ ds ++ ".\n\nWe\x27ll notify you as soon as it\x27s delivered."

/-- Prompt for the dispatch-mode choice after a positive fit confirmation. -/
def dispatchChoicePromptMsg (pn : String) : String :=
  "Excellent! The training aligner fits well.\n\nFor the full treatment aligners for " ++ pn ++ ", would you prefer:\n\n1️⃣ Phase-Wise delivery (receive aligners in phases)\n2️⃣ Full Case delivery (receive all aligners at once)\n\nPlease reply with \x27Phase-Wise\x27 or \x27Full Case\x27."

/-- Escalation message of the negative fit confirmation branch. -/
def fitIssueMsg (pn : String) : String :=
  "Thank you for the feedback. We understand the training aligner for " ++ pn ++ " needs adjustment.\n\nA member of our clinical team will contact you within 24 hours to discuss the next steps."

/-- Re-prompt emitted when the fit classification matches no label. -/
def fitRepromptMsg : String :=
  "I apologize, I didn\x27t quite understand your response.\n\nRegarding the training aligner fit, could you please confirm:\n\n✅ Yes - it fits correctly\n❌ No - it has fit issues\n\nA simple \x27Yes\x27 or \x27No\x27 would be helpful."

/-- Confirmation message of the phase-wise dispatch choice. -/
def phaseWiseConfirmMsg (pn : String) : String :=
  "Perfect! We\x27ll prepare the phase-wise delivery for " ++ pn ++ ". You\x27ll receive the first phase soon, followed by subsequent phases as treatment progresses."

/-- Confirmation message of the full-case dispatch choice. -/
def fullCaseConfirmMsg (pn : String) : String :=
  "Excellent! We\x27ll prepare the complete set of aligners for " ++ pn ++ ". All aligners will be delivered together."

/-- Re-prompt emitted when the dispatch classification matches no label. -/
def dispatchRepromptMsg : String :=
  "I\x27m not sure which delivery option you\x27d prefer.\n\nPlease choose one of the following:\n\n1️⃣ \x27Phase-Wise\x27 - Receive aligners in phases\n2️⃣ \x27Full Case\x27 - Receive all aligners at once\n\nPlease reply with exactly \x27Phase-Wise\x27 or \x27Full Case\x27."

/-- Embedding of `handle_production_start` (src/prod_workflow.py, lines
145-208). `now` is the value of `int(time.time())` during the call. -/
def handle_production_start (case_id : Option String) (now : Int) (ctx : Ctx) : HOut :=
  if !optStrTruthy case_id || ctx.case_data.isEmpty then
    ⟨ctx, "Error",
      some "[ENGINE-ERROR] \x27case_id\x27 and \x27current_case_data\x27 must be provided for \x27start_production\x27 action."⟩
  else
    let status := dictGet ctx.case_data "status"
    let user_id_from_case := dictGet ctx.case_data "user_id"
    let patient_name := (dictGetD ctx.case_data "patient_name" (.str "Unknown Patient")).render
    if status = some (.str "ApprovedForProduction") then
      ⟨{ ctx with
          messages := ctx.messages ++ [⟨user_id_from_case, planningStartedMsg patient_name⟩],
          case_data := dictSet (dictSet ctx.case_data "status" (.str "CasePlanningComplete"))
            "planning_started_at" (.int now),
          next_actions := ctx.next_actions ++ ["schedule_training_aligner_production"] },
        "Success", none⟩
    else if status = some (.str "CasePlanningComplete") then
      ⟨{ ctx with
          messages := ctx.messages ++ [⟨user_id_from_case, trainingDispatchedMsg patient_name⟩],
          case_data := dictSet (dictSet (dictSet ctx.case_data "status" (.str "AwaitingDelivery"))
            "delivery_status" (.str "In Transit")) "dispatched_at" (.int now),
          next_actions := ctx.next_actions ++ ["track_delivery"] },
        "Success", none⟩
    else if status = some (.str "FitConfirmed_PhaseWise") then
      ⟨{ ctx with
          messages := ctx.messages ++ [⟨user_id_from_case, phaseProductionMsg patient_name⟩],
          case_data := dictSet (dictSet ctx.case_data "status" (.str "Dispatching_PhaseWise"))
            "phase_production_started" (.int now),
          next_actions := ctx.next_actions ++ ["schedule_phase_production"] },
        "Success", none⟩
    else if status = some (.str "FitConfirmed_FullCase") then
      ⟨{ ctx with
          messages := ctx.messages ++ [⟨user_id_from_case, fullProductionMsg patient_name⟩],
          case_data := dictSet (dictSet ctx.case_data "status" (.str "Dispatching_FullCase"))
            "full_production_started" (.int now),
          next_actions := ctx.next_actions ++ ["schedule_full_production"] },
        "Success", none⟩
    else
      ⟨ctx, "NoAction", none⟩

/-- Embedding of `handle_delivery_inquiry` (src/prod_workflow.py, lines
254-284). The `.error` result models an uncaught Python exception: the
`AttributeError` raised by `delivery_status.lower()` when the stored
`delivery_status` is a truthy int; it is caught by the top level. -/
def handle_delivery_inquiry (user_id : String) (active_case_id : Option Val)
    (ctx : Ctx) : Except String HOut :=
  if !optTruthy active_case_id || ctx.case_data.isEmpty then
    .ok ⟨ctx, "Error", some "No active case or case data found for this user to inquire about delivery."⟩
  else
    let patient_name := (dictGetD ctx.case_data "patient_name" (.str "your patient")).render
    let delivery_status := dictGetD ctx.case_data "delivery_status" (.str "Info not available")
    let lowered : Except String (Option String) :=
      if delivery_status.truthy then
        match delivery_status with
        | .str s => .ok (some (lowerStr s))
        | .int _ => .error "\x27int\x27 object has no attribute \x27lower\x27"
      else .ok none
    match lowered with
    | .error e => .error e
    | .ok low =>
      if low = some "delivered" then
        .ok ⟨{ ctx with
            messages := ctx.messages ++ [⟨some (.str user_id), fitCheckPromptMsg patient_name⟩],
            case_data := dictSet ctx.case_data "status" (.str "AwaitingFitConfirmation"),
            session := dictSet ctx.session "current_stage" (.str "awaiting_fit_confirmation"),
            next_actions := ctx.next_actions ++ ["follow_up_fit_confirmation"] },
          "Success", none⟩
      else
        .ok ⟨{ ctx with
            messages := ctx.messages ++
              [⟨some (.str user_id), deliveryEchoMsg patient_name delivery_status.render⟩] },
          "Success", none⟩

/-- Embedding of `handle_fit_confirmation` (src/prod_workflow.py, lines
287-354). `oracle` is the outcome of the LLMChain run on the fit
classification prompt: `.ok` carries the raw response text, `.error` a
raised exception, which this handler catches itself. -/
def handle_fit_confirmation (user_id : String) (active_case_id : Option Val)
    (oracle : Except String String) (now : Int) (ctx : Ctx) : HOut :=
  if !optTruthy active_case_id then
    ⟨ctx, "Error", some "No active case found for this user to confirm fit."⟩
  else
    match oracle with
    | .error e => ⟨ctx, "Error", some ("LLM error during fit confirmation: " ++ e)⟩
    | .ok resp =>
      let fit_confirmation := lowerStr (stripStr resp)
      let patient_name := (dictGetD ctx.case_data "patient_name" (.str "your patient")).render
      if strContains fit_confirmation "yes" then
        ⟨{ ctx with
            messages := ctx.messages ++ [⟨some (.str user_id), dispatchChoicePromptMsg patient_name⟩],
            session := dictSet ctx.session "current_stage" (.str "awaiting_dispatch_choice"),
            next_actions := ctx.next_actions ++ ["prepare_production_options"] },
          "Success", none⟩
      else if strContains fit_confirmation "no" then
        ⟨{ ctx with
            messages := ctx.messages ++ [⟨some (.str user_id), fitIssueMsg patient_name⟩],
            case_data := dictSet (dictSet ctx.case_data "status" (.str "FitIssueReported"))
              "fit_issue_reported_at" (.int now),
            session := dictSet ctx.session "current_stage" (.str "general"),
            next_actions := ctx.next_actions ++ ["escalate_to_clinical_team"] },
          "Success", none⟩
      else
        ⟨{ ctx with messages := ctx.messages ++ [⟨some (.str user_id), fitRepromptMsg⟩] },
          "Success", none⟩

/-- Embedding of `handle_dispatch_choice` (src/prod_workflow.py, lines
357-427); `oracle` as in `handle_fit_confirmation`. -/
def handle_dispatch_choice (user_id : String) (active_case_id : Option Val)
    (oracle : Except String String) (now : Int) (ctx : Ctx) : HOut :=
  if !optTruthy active_case_id then
    ⟨ctx, "Error", some "No active case found for this user to confirm dispatch choice."⟩
  else
    match oracle with
    | .error e => ⟨ctx, "Error", some ("LLM error during dispatch choice: " ++ e)⟩
    | .ok resp =>
      let dispatch_choice := lowerStr (stripStr resp)
      let patient_name := (dictGetD ctx.case_data "patient_name" (.str "your patient")).render
      if strContains dispatch_choice "phasewise" then
        ⟨{ ctx with
            messages := ctx.messages ++ [⟨some (.str user_id), phaseWiseConfirmMsg patient_name⟩],
            case_data := dictSet (dictSet ctx.case_data "status" (.str "FitConfirmed_PhaseWise"))
              "delivery_choice_confirmed_at" (.int now),
            session := dictSet ctx.session "current_stage" (.str "general"),
            next_actions := ctx.next_actions ++ ["schedule_phase_wise_production"] },
          "Success", none⟩
      else if strContains dispatch_choice "fullcase" then
        ⟨{ ctx with
            messages := ctx.messages ++ [⟨some (.str user_id), fullCaseConfirmMsg patient_name⟩],
            case_data := dictSet (dictSet ctx.case_data "status" (.str "FitConfirmed_FullCase"))
              "delivery_choice_confirmed_at" (.int now),
            session := dictSet ctx.session "current_stage" (.str "general"),
            next_actions := ctx.next_actions ++ ["schedule_full_case_production"] },
          "Success", none⟩
      else
        ⟨{ ctx with messages := ctx.messages ++ [⟨some (.str user_id), dispatchRepromptMsg⟩] },
          "Success", none⟩

/-- Embedding of `handle_general_inquiry` (src/prod_workflow.py, lines
430-457). -/
def handle_general_inquiry (user_id message_body : String) (ctx : Ctx) : HOut :=
  let message_lower := lowerStr message_body
  let response :=
    if ["hello", "hi", "hey", "good morning", "good afternoon"].any (strContains message_lower) then
      "Hello! Welcome to our dental aligner service. How can I assist you today?\n\n• Check delivery status\n• Report fit issues\n• General questions about your case"
    else if ["status", "update", "progress", "where"].any (strContains message_lower) then
      "I\x27d be happy to help you check the status of your case. Could you please provide your case ID or patient name?"
    else if ["delivery", "shipped", "tracking"].any (strContains message_lower) then
      "For delivery updates, I can check the current status of your shipment. Do you have an active case you\x27d like me to look up?"
    else if ["help", "support", "assistance"].any (strContains message_lower) then
      "I\x27m here to help! I can assist with:\n\n✅ Delivery status updates\n✅ Fit confirmation\n✅ General case information\n✅ Connect you with our clinical team\n\nWhat would you like help with?"
    else
      "Thank you for your message. I\x27m here to help with your aligner cases.\n\nIf you need immediate assistance, please contact our support team, or let me know how I can help you today!"
  ⟨{ ctx with messages := ctx.messages ++ [⟨some (.str user_id), response⟩] }, "Success", none⟩

/-- Embedding of `handle_message_processing` (src/prod_workflow.py, lines
211-251): dispatch on the session stage. -/
def handle_message_processing (user_id message_body : Option String)
    (oracle : Except String String) (now : Int) (ctx : Ctx) : Except String HOut :=
  if !optStrTruthy user_id || !optStrTruthy message_body || ctx.session.isEmpty then
    .ok ⟨ctx, "Error",
      some "[ROUTER-ERROR] \x27user_id\x27, \x27message_body\x27, and \x27current_user_session\x27 must be provided for \x27process_message\x27 action."⟩
  else
    let uid := user_id.getD ""
    let stage := dictGetD ctx.session "current_stage" (.str "general")
    let active_case_id := dictGet ctx.session "active_case"
    if stage = .str "awaiting_delivery" then
      handle_delivery_inquiry uid active_case_id ctx
    else if stage = .str "awaiting_fit_confirmation" then
      .ok (handle_fit_confirmation uid active_case_id oracle now ctx)
    else if stage = .str "awaiting_dispatch_choice" then
      .ok (handle_dispatch_choice uid active_case_id oracle now ctx)
    else if stage = .str "general" then
      .ok (handle_general_inquiry uid (message_body.getD "") ctx)
    else
      .ok ⟨ctx, "NoAction", none⟩

/-- The dict returned by `dental_aligner_workflow`. -/
structure WorkflowResult where
  updated_case_data : Dict
  updated_user_session : Dict
  messages_to_send : List Message
  status : String
  error : Option String
  next_actions : List String
  workflow_timestamp : Int
deriving DecidableEq

/-- The workflow metadata block of `dental_aligner_workflow` (lines
119-122): `last_workflow_run` and `last_action_type` are written whenever
the (possibly handler-mutated) case dict is non-empty. -/
def stampCase (action_type : String) (now : Int) (d : Dict) : Dict :=
  if d.isEmpty then d
  else dictSet (dictSet d "last_workflow_run" (.int now)) "last_action_type" (.str action_type)

/-- The workflow metadata block for the session (lines 124-125):
`last_activity` is written whenever the session dict is non-empty. -/
def stampSession (now : Int) (d : Dict) : Dict :=
  if d.isEmpty then d else dictSet d "last_activity" (.int now)

/-- The action dispatch of `dental_aligner_workflow` (lines 93-113): run
the handler for the requested action type, or report an invalid action
type. -/
def dispatchAction (action_type : String) (oracle : Except String String)
    (case_id user_id message_body : Option String) (now : Int) (ctx0 : Ctx) :
    Except String HOut :=
  if action_type = "start_production" then
    .ok (handle_production_start case_id now ctx0)
  else if action_type = "process_message" then
    handle_message_processing user_id message_body oracle now ctx0
  else
    .ok ⟨ctx0, "Error",
      some "Invalid \x27action_type\x27 provided. Must be \x27start_production\x27 or \x27process_message\x27."⟩

/-- The top-level `except` of `dental_aligner_workflow` (lines 114-117): an
uncaught handler exception becomes an `Error` result; the state returned is
the state as mutated so far, and the only raise point in any handler occurs
before any mutation, so it is the entry state. -/
def catchHOut (ctx0 : Ctx) (outcome : Except String HOut) : HOut :=
  match outcome with
  | .ok h => h
  | .error e => ⟨ctx0, "Error", some ("Unexpected error in workflow: " ++ e)⟩

/-- Embedding of `dental_aligner_workflow` (src/prod_workflow.py, lines
27-137). `now` is the clock reading `int(time.time())` of the invocation
and `oracle` the behavior of the LLM chain run during it. -/
def dental_aligner_workflow (action_type : String) (oracle : Except String String)
    (case_id user_id message_body : Option String)
    (current_case_data current_user_session : Option Dict) (now : Int) :
    WorkflowResult :=
  let ctx0 : Ctx := ⟨current_case_data.getD [], current_user_session.getD [], [], []⟩
  let h : HOut := catchHOut ctx0 (dispatchAction action_type oracle case_id user_id message_body now ctx0)
  ⟨stampCase action_type now h.ctx.case_data, stampSession now h.ctx.session,
    h.ctx.messages, h.status, h.error, h.ctx.next_actions, now⟩

/-- The result-shaping invariant: the status is one of the three documented
values, and the error field is populated exactly when the status is
`Error`. -/
def statusShape (st : String) (er : Option String) : Prop :=
  (st = "Success" ∨ st = "NoAction" ∨ st = "Error") ∧ (er ≠ none ↔ st = "Error")

/-- Modelled from the spec: the successor relation declared by the §4.2
state-machine table and diagram (the forward transitions the spec allows
a case status to take). -/
def declaredSuccessor : String → String → Bool
  | "ApprovedForProduction", "CasePlanningComplete" => true
  | "CasePlanningComplete", "AwaitingDelivery" => true
  | "AwaitingDelivery", "AwaitingFitConfirmation" => true
  | "AwaitingFitConfirmation", "FitIssueReported" => true
  | "AwaitingFitConfirmation", "FitConfirmed_PhaseWise" => true
  | "AwaitingFitConfirmation", "FitConfirmed_FullCase" => true
  | "FitConfirmed_PhaseWise", "Dispatching_PhaseWise" => true
  | "FitConfirmed_FullCase", "Dispatching_FullCase" => true
  | _, _ => false

/-! Basic lemmas about the dictionary model. -/

theorem dictGet_dictSet_self (d : Dict) (k : String) (v : Val) :
    dictGet (dictSet d k v) k = some v := by
  induction d with
  | nil => simp [dictSet, dictGet]
  | cons p t ih =>
    obtain ⟨k2, v2⟩ := p
    by_cases h : k2 = k <;> simp [dictSet, dictGet, h, ih]

theorem dictGet_dictSet_ne (d : Dict) (k k2 : String) (v : Val) (h : k2 ≠ k) :
    dictGet (dictSet d k v) k2 = dictGet d k2 := by
  induction d with
  | nil => simp [dictSet, dictGet]; exact fun hh => h hh.symm
  | cons p t ih =>
    obtain ⟨k3, v3⟩ := p
    by_cases h3 : k3 = k <;> by_cases h2 : k3 = k2 <;>
      simp_all [dictSet, dictGet]

theorem dictSet_isEmpty (d : Dict) (k : String) (v : Val) :
    (dictSet d k v).isEmpty = false := by
  cases d with
  | nil => simp [dictSet]
  | cons p t =>
    obtain ⟨k2, v2⟩ := p
    by_cases h : k2 = k <;> simp [dictSet, h]

theorem dictGetD_of_get_some (d : Dict) (k : String) (v dflt : Val)
    (h : dictGet d k = some v) : dictGetD d k dflt = v := by
  simp [dictGetD, h]

theorem dictGetD_of_get_none (d : Dict) (k : String) (dflt : Val)
    (h : dictGet d k = none) : dictGetD d k dflt = dflt := by
  simp [dictGetD, h]

theorem stampCase_get (a : String) (n : Int) (d : Dict) (k : String)
    (h1 : k ≠ "last_workflow_run") (h2 : k ≠ "last_action_type") :
    dictGet (stampCase a n d) k = dictGet d k := by
  unfold stampCase
  split
  · rfl
  · rw [dictGet_dictSet_ne _ _ _ _ h2, dictGet_dictSet_ne _ _ _ _ h1]

theorem stampSession_get (n : Int) (d : Dict) (k : String)
    (h : k ≠ "last_activity") :
    dictGet (stampSession n d) k = dictGet d k := by
  unfold stampSession
  split
  · rfl
  · rw [dictGet_dictSet_ne _ _ _ _ h]

/-! Result shaping: every handler returns one of the three documented
status strings and an error string exactly on `Error`. -/

theorem handle_production_start_shape (cid : Option String) (now : Int) (ctx : Ctx) :
    statusShape (handle_production_start cid now ctx).status
      (handle_production_start cid now ctx).error := by
  unfold handle_production_start
  dsimp only
  split_ifs <;> simp [statusShape]

theorem handle_delivery_inquiry_shape (uid : String) (ac : Option Val) (ctx : Ctx)
    (h : HOut) (heq : handle_delivery_inquiry uid ac ctx = .ok h) :
    statusShape h.status h.error := by
  unfold handle_delivery_inquiry at heq
  dsimp only at heq
  split at heq
  · cases heq; simp [statusShape]
  · split at heq
    · simp at heq
    · split at heq
      · cases heq; simp [statusShape]
      · cases heq; simp [statusShape]

theorem handle_fit_confirmation_shape (uid : String) (ac : Option Val)
    (oracle : Except String String) (now : Int) (ctx : Ctx) :
    statusShape (handle_fit_confirmation uid ac oracle now ctx).status
      (handle_fit_confirmation uid ac oracle now ctx).error := by
  cases oracle with
  | error e =>
    unfold handle_fit_confirmation
    dsimp only
    split_ifs <;> simp [statusShape]
  | ok resp =>
    unfold handle_fit_confirmation
    dsimp only
    split_ifs <;> simp [statusShape]

theorem handle_dispatch_choice_shape (uid : String) (ac : Option Val)
    (oracle : Except String String) (now : Int) (ctx : Ctx) :
    statusShape (handle_dispatch_choice uid ac oracle now ctx).status
      (handle_dispatch_choice uid ac oracle now ctx).error := by
  cases oracle with
  | error e =>
    unfold handle_dispatch_choice
    dsimp only
    split_ifs <;> simp [statusShape]
  | ok resp =>
    unfold handle_dispatch_choice
    dsimp only
    split_ifs <;> simp [statusShape]

theorem handle_general_inquiry_shape (uid mb : String) (ctx : Ctx) :
    statusShape (handle_general_inquiry uid mb ctx).status
      (handle_general_inquiry uid mb ctx).error := by
  unfold handle_general_inquiry
  simp [statusShape]

theorem handle_message_processing_shape (u m : Option String)
    (oracle : Except String String) (now : Int) (ctx : Ctx) (h : HOut)
    (heq : handle_message_processing u m oracle now ctx = .ok h) :
    statusShape h.status h.error := by
  unfold handle_message_processing at heq
  split at heq
  · cases heq; simp [statusShape]
  · dsimp only at heq
    split at heq
    · exact handle_delivery_inquiry_shape _ _ _ _ heq
    · split at heq
      · cases heq; exact handle_fit_confirmation_shape _ _ _ _ _
      · split at heq
        · cases heq; exact handle_dispatch_choice_shape _ _ _ _ _
        · split at heq
          · cases heq; exact handle_general_inquiry_shape _ _ _
          · cases heq; simp [statusShape]

/-- C9: for every input — any action type, any oracle behavior including a
raised exception, arbitrary or missing snapshots — the workflow returns a
result whose status is exactly one of `Success`, `NoAction`, `Error`, and
whose error field is populated exactly when the status is `Error` (every
handler exception is caught and folded into an `Error` result). -/
theorem C9_result_shape (action_type : String) (oracle : Except String String)
    (case_id user_id message_body : Option String)
    (ccd cus : Option Dict) (now : Int) :
    ((dental_aligner_workflow action_type oracle case_id user_id message_body ccd cus now).status = "Success" ∨
      (dental_aligner_workflow action_type oracle case_id user_id message_body ccd cus now).status = "NoAction" ∨
      (dental_aligner_workflow action_type oracle case_id user_id message_body ccd cus now).status = "Error") ∧
    ((dental_aligner_workflow action_type oracle case_id user_id message_body ccd cus now).error ≠ none ↔
      (dental_aligner_workflow action_type oracle case_id user_id message_body ccd cus now).status = "Error") := by
  have hd : ∀ (ctx0 : Ctx) (h : HOut),
      dispatchAction action_type oracle case_id user_id message_body now ctx0 = .ok h →
      statusShape h.status h.error := by
    intro ctx0 h heq
    unfold dispatchAction at heq
    split at heq
    · cases heq
      exact handle_production_start_shape _ _ _
    · split at heq
      · exact handle_message_processing_shape _ _ _ _ _ _ heq
      · cases heq
        simp [statusShape]
  have hs : ∀ (ctx0 : Ctx),
      statusShape (catchHOut ctx0 (dispatchAction action_type oracle case_id user_id message_body now ctx0)).status
        (catchHOut ctx0 (dispatchAction action_type oracle case_id user_id message_body now ctx0)).error := by
    intro ctx0
    rcases heq : dispatchAction action_type oracle case_id user_id message_body now ctx0 with e | h
    · simp [catchHOut, statusShape]
    · dsimp only [catchHOut]
      exact hd ctx0 h heq
  exact ⟨(hs _).1, (hs _).2⟩

/-- C1: with the session in stage `awaiting_fit_confirmation` and a non-null
active case, the literal classifier response `"Unknown"` — which the spec
folds into the no-match re-prompt branch — actually fires the `No` branch,
because `"no"` is a substring of the lowercased `"unknown"`: the engine sets
`Case.status` to `FitIssueReported`, moves `Session.current_stage` to
`general`, and sends the escalation message instead of the re-prompt. -/
theorem C1_unknown_response_fires_no_branch :
    strContains (lowerStr (stripStr "Unknown")) "no" = true ∧
    dictGet (dental_aligner_workflow "process_message" (.ok "Unknown") none (some "u1")
      (some "it arrived, does it fit?")
      (some [("status", .str "AwaitingFitConfirmation"), ("patient_name", .str "Alice")])
      (some [("current_stage", .str "awaiting_fit_confirmation"), ("active_case", .str "case-1")])
      7).updated_case_data "status" = some (.str "FitIssueReported") ∧
    dictGet (dental_aligner_workflow "process_message" (.ok "Unknown") none (some "u1")
      (some "it arrived, does it fit?")
      (some [("status", .str "AwaitingFitConfirmation"), ("patient_name", .str "Alice")])
      (some [("current_stage", .str "awaiting_fit_confirmation"), ("active_case", .str "case-1")])
      7).updated_user_session "current_stage" = some (.str "general") ∧
    (dental_aligner_workflow "process_message" (.ok "Unknown") none (some "u1")
      (some "it arrived, does it fit?")
      (some [("status", .str "AwaitingFitConfirmation"), ("patient_name", .str "Alice")])
      (some [("current_stage", .str "awaiting_fit_confirmation"), ("active_case", .str "case-1")])
      7).messages_to_send = [⟨some (.str "u1"), fitIssueMsg "Alice"⟩] := by
  decide

/-- A non-empty list is not `isEmpty`. -/
theorem isEmpty_false_of_ne_nil (d : Dict) (h : d ≠ []) : d.isEmpty = false := by
  cases d with
  | nil => exact absurd rfl h
  | cons p t => rfl

/-- Unfolding of the workflow for the `start_production` action: the
production handler runs and the metadata stamps are applied. -/
theorem workflow_start_run (oracle : Except String String) (cid u m : Option String)
    (ccd cus : Option Dict) (now : Int) :
    dental_aligner_workflow "start_production" oracle cid u m ccd cus now =
      ⟨stampCase "start_production" now
          (handle_production_start cid now ⟨ccd.getD [], cus.getD [], [], []⟩).ctx.case_data,
        stampSession now (handle_production_start cid now ⟨ccd.getD [], cus.getD [], [], []⟩).ctx.session,
        (handle_production_start cid now ⟨ccd.getD [], cus.getD [], [], []⟩).ctx.messages,
        (handle_production_start cid now ⟨ccd.getD [], cus.getD [], [], []⟩).status,
        (handle_production_start cid now ⟨ccd.getD [], cus.getD [], [], []⟩).error,
        (handle_production_start cid now ⟨ccd.getD [], cus.getD [], [], []⟩).ctx.next_actions,
        now⟩ := rfl

/-- Unfolding of the workflow for the `process_message` action when the
message handler returns normally. -/
theorem workflow_process_run (oracle : Except String String) (cid u m : Option String)
    (ccd cus : Option Dict) (now : Int) (h : HOut)
    (heq : handle_message_processing u m oracle now ⟨ccd.getD [], cus.getD [], [], []⟩ = .ok h) :
    dental_aligner_workflow "process_message" oracle cid u m ccd cus now =
      ⟨stampCase "process_message" now h.ctx.case_data, stampSession now h.ctx.session,
        h.ctx.messages, h.status, h.error, h.ctx.next_actions, now⟩ := by
  unfold dental_aligner_workflow catchHOut dispatchAction
  dsimp only
  rw [if_neg (by decide), if_pos rfl, heq]

/-- C7: `start_production` on a case whose status is none of
`ApprovedForProduction`, `CasePlanningComplete`, `FitConfirmed_PhaseWise`,
`FitConfirmed_FullCase` yields `NoAction` (never `Error`), produces no
outbound messages, and leaves the status field unchanged. -/
theorem C7_undefined_status_is_noaction (cid : String) (ccd : Dict) (cus : Option Dict)
    (oracle : Except String String) (u m : Option String) (now : Int)
    (hcid : cid ≠ "") (hccd : ccd ≠ [])
    (h1 : dictGet ccd "status" ≠ some (.str "ApprovedForProduction"))
    (h2 : dictGet ccd "status" ≠ some (.str "CasePlanningComplete"))
    (h3 : dictGet ccd "status" ≠ some (.str "FitConfirmed_PhaseWise"))
    (h4 : dictGet ccd "status" ≠ some (.str "FitConfirmed_FullCase")) :
    (dental_aligner_workflow "start_production" oracle (some cid) u m (some ccd) cus now).status = "NoAction" ∧
    (dental_aligner_workflow "start_production" oracle (some cid) u m (some ccd) cus now).messages_to_send = [] ∧
    (dental_aligner_workflow "start_production" oracle (some cid) u m (some ccd) cus now).error = none ∧
    dictGet (dental_aligner_workflow "start_production" oracle (some cid) u m (some ccd) cus now).updated_case_data
      "status" = dictGet ccd "status" := by
  have hie : ccd.isEmpty = false := isEmpty_false_of_ne_nil ccd hccd
  have hrun : handle_production_start (some cid) now ⟨ccd, cus.getD [], [], []⟩ =
      ⟨⟨ccd, cus.getD [], [], []⟩, "NoAction", none⟩ := by
    unfold handle_production_start
    simp [optStrTruthy, hcid, hie, h1, h2, h3, h4]
  rw [workflow_start_run]
  simp only [Option.getD_some, hrun]
  refine ⟨trivial, trivial, trivial, ?_⟩
  rw [stampCase_get _ _ _ _ (by decide) (by decide)]

/-- Concrete instantiation of the C7 theorem: a case sitting in
`AwaitingDelivery` is reported as `NoAction` with no messages. -/
theorem C7_undefined_status_is_noaction_witness :
    (dental_aligner_workflow "start_production" (.ok "") (some "case-1") none none
      (some [("status", .str "AwaitingDelivery")]) none 0).status = "NoAction" ∧
    (dental_aligner_workflow "start_production" (.ok "") (some "case-1") none none
      (some [("status", .str "AwaitingDelivery")]) none 0).messages_to_send = [] ∧
    (dental_aligner_workflow "start_production" (.ok "") (some "case-1") none none
      (some [("status", .str "AwaitingDelivery")]) none 0).error = none ∧
    dictGet (dental_aligner_workflow "start_production" (.ok "") (some "case-1") none none
      (some [("status", .str "AwaitingDelivery")]) none 0).updated_case_data "status" =
      dictGet [("status", .str "AwaitingDelivery")] "status" :=
  C7_undefined_status_is_noaction "case-1" [("status", .str "AwaitingDelivery")] none (.ok "")
    none none 0 (by decide) (by decide) (by decide) (by decide) (by decide) (by decide)

/-- C5: at stage `awaiting_delivery` with an active case and case data
supplied, a delivery status equal to `"delivered"` case-insensitively
transitions the case to `AwaitingFitConfirmation` and the session to
`awaiting_fit_confirmation` with exactly one fit-check prompt; any other
delivery status yields exactly one message echoing that status and changes
neither the case status nor the session stage. -/
theorem C5_delivery_stage (u m : String) (ccd cus : Dict) (cid : Option String)
    (oracle : Except String String) (now : Int) (d : String)
    (hu : u ≠ "") (hm : m ≠ "") (hcus : cus ≠ [])
    (hstage : dictGet cus "current_stage" = some (.str "awaiting_delivery"))
    (hac : optTruthy (dictGet cus "active_case") = true)
    (hccd : ccd ≠ [])
    (hd : dictGetD ccd "delivery_status" (.str "Info not available") = .str d) :
    (lowerStr d = "delivered" →
      dictGet (dental_aligner_workflow "process_message" oracle cid (some u) (some m)
        (some ccd) (some cus) now).updated_case_data "status" = some (.str "AwaitingFitConfirmation") ∧
      dictGet (dental_aligner_workflow "process_message" oracle cid (some u) (some m)
        (some ccd) (some cus) now).updated_user_session "current_stage" = some (.str "awaiting_fit_confirmation") ∧
      (dental_aligner_workflow "process_message" oracle cid (some u) (some m)
        (some ccd) (some cus) now).messages_to_send =
        [⟨some (.str u), fitCheckPromptMsg (dictGetD ccd "patient_name" (.str "your patient")).render⟩]) ∧
    (lowerStr d ≠ "delivered" →
      (dental_aligner_workflow "process_message" oracle cid (some u) (some m)
        (some ccd) (some cus) now).messages_to_send =
        [⟨some (.str u), deliveryEchoMsg (dictGetD ccd "patient_name" (.str "your patient")).render d⟩] ∧
      dictGet (dental_aligner_workflow "process_message" oracle cid (some u) (some m)
        (some ccd) (some cus) now).updated_case_data "status" = dictGet ccd "status" ∧
      dictGet (dental_aligner_workflow "process_message" oracle cid (some u) (some m)
        (some ccd) (some cus) now).updated_user_session "current_stage" = some (.str "awaiting_delivery")) := by
  have hmp : handle_message_processing (some u) (some m) oracle now ⟨ccd, cus, [], []⟩ =
      handle_delivery_inquiry u (dictGet cus "active_case") ⟨ccd, cus, [], []⟩ := by
    unfold handle_message_processing
    dsimp only [Option.getD_some]
    rw [if_neg, if_pos (dictGetD_of_get_some _ _ _ _ hstage)]
    simp [optStrTruthy, hu, hm, isEmpty_false_of_ne_nil _ hcus]
  have hcond3 : ¬((!optTruthy (dictGet cus "active_case") || ccd.isEmpty) = true) := by
    simp [hac, isEmpty_false_of_ne_nil _ hccd]
  constructor
  · intro hlow
    have hdne : d ≠ "" := by
      intro hnil
      rw [hnil] at hlow
      exact absurd hlow (by decide)
    have htr : Val.truthy (.str d) = true := by simp [Val.truthy, hdne]
    have hdi : handle_delivery_inquiry u (dictGet cus "active_case") ⟨ccd, cus, [], []⟩ =
        .ok ⟨⟨dictSet ccd "status" (.str "AwaitingFitConfirmation"),
              dictSet cus "current_stage" (.str "awaiting_fit_confirmation"),
              [⟨some (.str u), fitCheckPromptMsg (dictGetD ccd "patient_name" (.str "your patient")).render⟩],
              ["follow_up_fit_confirmation"]⟩, "Success", none⟩ := by
      unfold handle_delivery_inquiry
      dsimp only
      rw [if_neg hcond3, hd]
      dsimp only
      rw [if_pos htr]
      dsimp only
      rw [hlow, if_pos rfl]
      rfl
    rw [workflow_process_run _ _ _ _ _ _ _ _ (hmp.trans hdi)]
    refine ⟨?_, ?_, rfl⟩
    · rw [stampCase_get _ _ _ _ (by decide) (by decide), dictGet_dictSet_self]
    · rw [stampSession_get _ _ _ (by decide), dictGet_dictSet_self]
  · intro hlow
    have hdi : handle_delivery_inquiry u (dictGet cus "active_case") ⟨ccd, cus, [], []⟩ =
        .ok ⟨⟨ccd, cus,
              [⟨some (.str u), deliveryEchoMsg (dictGetD ccd "patient_name" (.str "your patient")).render d⟩],
              []⟩, "Success", none⟩ := by
      unfold handle_delivery_inquiry
      dsimp only
      rw [if_neg hcond3, hd]
      dsimp only
      by_cases hdnil : d = ""
      · subst hdnil
        rw [if_neg (by decide)]
        dsimp only
        rw [if_neg (by decide)]
        rfl
      · have htr : Val.truthy (.str d) = true := by simp [Val.truthy, hdnil]
        rw [if_pos htr]
        dsimp only
        rw [if_neg (fun hcontra => hlow (Option.some.inj hcontra))]
        rfl
    rw [workflow_process_run _ _ _ _ _ _ _ _ (hmp.trans hdi)]
    refine ⟨rfl, ?_, ?_⟩
    · rw [stampCase_get _ _ _ _ (by decide) (by decide)]
    · rw [stampSession_get _ _ _ (by decide), hstage]

/-- Concrete instantiation of the C5 theorem: delivery status `"Delivered"`
(capitalised) moves the case to `AwaitingFitConfirmation` and the session
to `awaiting_fit_confirmation`. -/
theorem C5_delivery_stage_witness :
    dictGet (dental_aligner_workflow "process_message" (.ok "x") none (some "u1") (some "any update?")
      (some [("status", .str "AwaitingDelivery"), ("delivery_status", .str "Delivered"), ("patient_name", .str "Ann")])
      (some [("current_stage", .str "awaiting_delivery"), ("active_case", .str "c1")]) 5).updated_case_data
      "status" = some (.str "AwaitingFitConfirmation") ∧
    dictGet (dental_aligner_workflow "process_message" (.ok "x") none (some "u1") (some "any update?")
      (some [("status", .str "AwaitingDelivery"), ("delivery_status", .str "Delivered"), ("patient_name", .str "Ann")])
      (some [("current_stage", .str "awaiting_delivery"), ("active_case", .str "c1")]) 5).updated_user_session
      "current_stage" = some (.str "awaiting_fit_confirmation") :=
  have h := (C5_delivery_stage "u1" "any update?"
    [("status", .str "AwaitingDelivery"), ("delivery_status", .str "Delivered"), ("patient_name", .str "Ann")]
    [("current_stage", .str "awaiting_delivery"), ("active_case", .str "c1")]
    none (.ok "x") 5 "Delivered" (by decide) (by decide) (by decide) (by decide) (by decide)
    (by decide) (by decide)).1 (by decide)
  ⟨h.1, h.2.1⟩

/-- C10: at stage `awaiting_fit_confirmation` with a non-null active case,
the Yes substring check runs before the No check on the lowercased oracle
response, so a response containing both `"yes"` and `"no"` fires the Yes
branch: the stage becomes `awaiting_dispatch_choice` and the case status is
left unchanged — in particular it is not set to `FitIssueReported`. -/
theorem C10_yes_checked_before_no (u m resp : String) (ccd cus : Dict)
    (cid : Option String) (now : Int)
    (hu : u ≠ "") (hm : m ≠ "") (hcus : cus ≠ [])
    (hstage : dictGet cus "current_stage" = some (.str "awaiting_fit_confirmation"))
    (hac : optTruthy (dictGet cus "active_case") = true)
    (hyes : strContains (lowerStr (stripStr resp)) "yes" = true)
    (hno : strContains (lowerStr (stripStr resp)) "no" = true) :
    dictGet (dental_aligner_workflow "process_message" (.ok resp) cid (some u) (some m)
      (some ccd) (some cus) now).updated_user_session "current_stage" =
      some (.str "awaiting_dispatch_choice") ∧
    dictGet (dental_aligner_workflow "process_message" (.ok resp) cid (some u) (some m)
      (some ccd) (some cus) now).updated_case_data "status" = dictGet ccd "status" ∧
    (dictGet ccd "status" ≠ some (.str "FitIssueReported") →
      dictGet (dental_aligner_workflow "process_message" (.ok resp) cid (some u) (some m)
        (some ccd) (some cus) now).updated_case_data "status" ≠ some (.str "FitIssueReported")) := by
  have hgd : dictGetD cus "current_stage" (.str "general") = .str "awaiting_fit_confirmation" :=
    dictGetD_of_get_some _ _ _ _ hstage
  have hmp : handle_message_processing (some u) (some m) (.ok resp) now ⟨ccd, cus, [], []⟩ =
      .ok (handle_fit_confirmation u (dictGet cus "active_case") (.ok resp) now ⟨ccd, cus, [], []⟩) := by
    unfold handle_message_processing
    dsimp only [Option.getD_some]
    rw [if_neg, hgd, if_neg (by decide), if_pos rfl]
    simp [optStrTruthy, hu, hm, isEmpty_false_of_ne_nil _ hcus]
  have hfc : handle_fit_confirmation u (dictGet cus "active_case") (.ok resp) now ⟨ccd, cus, [], []⟩ =
      ⟨⟨ccd, dictSet cus "current_stage" (.str "awaiting_dispatch_choice"),
        [⟨some (.str u), dispatchChoicePromptMsg (dictGetD ccd "patient_name" (.str "your patient")).render⟩],
        ["prepare_production_options"]⟩, "Success", none⟩ := by
    unfold handle_fit_confirmation
    dsimp only
    rw [if_neg (by simp [hac]), if_pos hyes]
    rfl
  rw [workflow_process_run _ _ _ _ _ _ _ _ (hmp.trans (congrArg Except.ok hfc))]
  refine ⟨?_, ?_, ?_⟩
  · rw [stampSession_get _ _ _ (by decide), dictGet_dictSet_self]
  · rw [stampCase_get _ _ _ _ (by decide) (by decide)]
  · intro hne
    rw [stampCase_get _ _ _ _ (by decide) (by decide)]
    exact hne

/-- Concrete instantiation of the C10 theorem: the response
`"yes and no"` contains both labels and fires the Yes branch. -/
theorem C10_yes_checked_before_no_witness :
    dictGet (dental_aligner_workflow "process_message" (.ok "yes and no") none (some "u1")
      (some "reply") (some [("status", .str "AwaitingFitConfirmation")])
      (some [("current_stage", .str "awaiting_fit_confirmation"), ("active_case", .str "c1")])
      2).updated_user_session "current_stage" = some (.str "awaiting_dispatch_choice") ∧
    dictGet (dental_aligner_workflow "process_message" (.ok "yes and no") none (some "u1")
      (some "reply") (some [("status", .str "AwaitingFitConfirmation")])
      (some [("current_stage", .str "awaiting_fit_confirmation"), ("active_case", .str "c1")])
      2).updated_case_data "status" = dictGet [("status", .str "AwaitingFitConfirmation")] "status" :=
  have h := C10_yes_checked_before_no "u1" "reply" "yes and no"
    [("status", .str "AwaitingFitConfirmation")]
    [("current_stage", .str "awaiting_fit_confirmation"), ("active_case", .str "c1")]
    none 2 (by decide) (by decide) (by decide) (by decide) (by decide) (by decide) (by decide)
  ⟨h.1, h.2.1⟩

/-- C8: at stage `general`, every message yields exactly one canned response
addressed to the sender, and no field of the case or the session changes
except the audit stamps (`last_workflow_run`, `last_action_type`,
`last_activity`); in particular `Case.status`, `Case.delivery_status`,
`Session.current_stage` and `Session.active_case` are returned unchanged. -/
theorem C8_general_stage_frame (u m : String) (ccd : Option Dict) (cus : Dict)
    (cid : Option String) (oracle : Except String String) (now : Int)
    (hu : u ≠ "") (hm : m ≠ "") (hcus : cus ≠ [])
    (hstage : dictGetD cus "current_stage" (.str "general") = .str "general") :
    (∃ c, (dental_aligner_workflow "process_message" oracle cid (some u) (some m)
      ccd (some cus) now).messages_to_send = [⟨some (.str u), c⟩]) ∧
    (∀ k, k ≠ "last_workflow_run" → k ≠ "last_action_type" →
      dictGet (dental_aligner_workflow "process_message" oracle cid (some u) (some m)
        ccd (some cus) now).updated_case_data k = dictGet (ccd.getD []) k) ∧
    (∀ k, k ≠ "last_activity" →
      dictGet (dental_aligner_workflow "process_message" oracle cid (some u) (some m)
        ccd (some cus) now).updated_user_session k = dictGet cus k) ∧
    dictGet (dental_aligner_workflow "process_message" oracle cid (some u) (some m)
      ccd (some cus) now).updated_case_data "status" = dictGet (ccd.getD []) "status" ∧
    dictGet (dental_aligner_workflow "process_message" oracle cid (some u) (some m)
      ccd (some cus) now).updated_case_data "delivery_status" = dictGet (ccd.getD []) "delivery_status" ∧
    dictGet (dental_aligner_workflow "process_message" oracle cid (some u) (some m)
      ccd (some cus) now).updated_user_session "current_stage" = dictGet cus "current_stage" ∧
    dictGet (dental_aligner_workflow "process_message" oracle cid (some u) (some m)
      ccd (some cus) now).updated_user_session "active_case" = dictGet cus "active_case" := by
  have hmp : handle_message_processing (some u) (some m) oracle now ⟨ccd.getD [], cus, [], []⟩ =
      .ok (handle_general_inquiry u m ⟨ccd.getD [], cus, [], []⟩) := by
    unfold handle_message_processing
    dsimp only [Option.getD_some]
    rw [if_neg, hstage, if_neg (by decide), if_neg (by decide), if_neg (by decide), if_pos rfl]
    simp [optStrTruthy, hu, hm, isEmpty_false_of_ne_nil _ hcus]
  obtain ⟨c, hgi⟩ : ∃ c, handle_general_inquiry u m ⟨ccd.getD [], cus, [], []⟩ =
      ⟨⟨ccd.getD [], cus, [⟨some (.str u), c⟩], []⟩, "Success", none⟩ := ⟨_, rfl⟩
  rw [workflow_process_run _ _ _ _ _ _ _ _ (hmp.trans (congrArg Except.ok hgi))]
  refine ⟨⟨c, rfl⟩, ?_, ?_, ?_, ?_, ?_, ?_⟩
  · intro k h1 h2
    rw [stampCase_get _ _ _ _ h1 h2]
  · intro k h1
    rw [stampSession_get _ _ _ h1]
  · rw [stampCase_get _ _ _ _ (by decide) (by decide)]
  · rw [stampCase_get _ _ _ _ (by decide) (by decide)]
  · rw [stampSession_get _ _ _ (by decide)]
  · rw [stampSession_get _ _ _ (by decide)]

/-- Concrete instantiation of the C8 theorem: a greeting in stage `general`
leaves the case status and the session stage untouched. -/
theorem C8_general_stage_frame_witness :
    dictGet (dental_aligner_workflow "process_message" (.ok "x") none (some "u1") (some "hello")
      (some [("status", .str "AwaitingDelivery")]) (some [("current_stage", .str "general")])
      4).updated_case_data "status" = dictGet ((some [("status", Val.str "AwaitingDelivery")]).getD []) "status" ∧
    dictGet (dental_aligner_workflow "process_message" (.ok "x") none (some "u1") (some "hello")
      (some [("status", .str "AwaitingDelivery")]) (some [("current_stage", .str "general")])
      4).updated_user_session "current_stage" = dictGet [("current_stage", Val.str "general")] "current_stage" :=
  have h := C8_general_stage_frame "u1" "hello" (some [("status", .str "AwaitingDelivery")])
    [("current_stage", .str "general")] none (.ok "x") 4
    (by decide) (by decide) (by decide) (by decide)
  ⟨h.2.2.2.1, h.2.2.2.2.2.1⟩

/-- C6 counterexample: the oracle response `"PhaseWise FullCase"` matches the
FullCase label by case-insensitive substring, yet the case status becomes
`FitConfirmed_PhaseWise`, not `FitConfirmed_FullCase`, because the PhaseWise
check runs first. -/
theorem C6_phasewise_precedence_counterexample :
    strContains (lowerStr (stripStr "PhaseWise FullCase")) "fullcase" = true ∧
    dictGet (dental_aligner_workflow "process_message" (.ok "PhaseWise FullCase") none (some "u1")
      (some "m") (some [("status", .str "AwaitingFitConfirmation")])
      (some [("current_stage", .str "awaiting_dispatch_choice"), ("active_case", .str "c1")])
      3).updated_case_data "status" = some (.str "FitConfirmed_PhaseWise") ∧
    ¬ dictGet (dental_aligner_workflow "process_message" (.ok "PhaseWise FullCase") none (some "u1")
      (some "m") (some [("status", .str "AwaitingFitConfirmation")])
      (some [("current_stage", .str "awaiting_dispatch_choice"), ("active_case", .str "c1")])
      3).updated_case_data "status" = some (.str "FitConfirmed_FullCase") := by
  decide

/-- C6 (amended): at stage `awaiting_dispatch_choice` with a non-null active
case, the PhaseWise label is checked first: a response matching PhaseWise
case-insensitively yields `FitConfirmed_PhaseWise` (even if it also matches
FullCase), a response matching FullCase but not PhaseWise yields
`FitConfirmed_FullCase`, in both cases with stage reset to `general` and
exactly one confirmation message; a response matching neither label yields
exactly one re-prompt and no case or session field changes apart from the
audit stamps. -/
theorem C6_dispatch_choice_amended (u m resp : String) (ccd cus : Dict)
    (cid : Option String) (now : Int)
    (hu : u ≠ "") (hm : m ≠ "") (hcus : cus ≠ [])
    (hstage : dictGet cus "current_stage" = some (.str "awaiting_dispatch_choice"))
    (hac : optTruthy (dictGet cus "active_case") = true) :
    (strContains (lowerStr (stripStr resp)) "phasewise" = true →
      dictGet (dental_aligner_workflow "process_message" (.ok resp) cid (some u) (some m)
        (some ccd) (some cus) now).updated_case_data "status" = some (.str "FitConfirmed_PhaseWise") ∧
      dictGet (dental_aligner_workflow "process_message" (.ok resp) cid (some u) (some m)
        (some ccd) (some cus) now).updated_user_session "current_stage" = some (.str "general") ∧
      (dental_aligner_workflow "process_message" (.ok resp) cid (some u) (some m)
        (some ccd) (some cus) now).messages_to_send =
        [⟨some (.str u), phaseWiseConfirmMsg (dictGetD ccd "patient_name" (.str "your patient")).render⟩]) ∧
    (strContains (lowerStr (stripStr resp)) "phasewise" = false →
      strContains (lowerStr (stripStr resp)) "fullcase" = true →
      dictGet (dental_aligner_workflow "process_message" (.ok resp) cid (some u) (some m)
        (some ccd) (some cus) now).updated_case_data "status" = some (.str "FitConfirmed_FullCase") ∧
      dictGet (dental_aligner_workflow "process_message" (.ok resp) cid (some u) (some m)
        (some ccd) (some cus) now).updated_user_session "current_stage" = some (.str "general") ∧
      (dental_aligner_workflow "process_message" (.ok resp) cid (some u) (some m)
        (some ccd) (some cus) now).messages_to_send =
        [⟨some (.str u), fullCaseConfirmMsg (dictGetD ccd "patient_name" (.str "your patient")).render⟩]) ∧
    (strContains (lowerStr (stripStr resp)) "phasewise" = false →
      strContains (lowerStr (stripStr resp)) "fullcase" = false →
      (dental_aligner_workflow "process_message" (.ok resp) cid (some u) (some m)
        (some ccd) (some cus) now).messages_to_send = [⟨some (.str u), dispatchRepromptMsg⟩] ∧
      (∀ k, k ≠ "last_workflow_run" → k ≠ "last_action_type" →
        dictGet (dental_aligner_workflow "process_message" (.ok resp) cid (some u) (some m)
          (some ccd) (some cus) now).updated_case_data k = dictGet ccd k) ∧
      (∀ k, k ≠ "last_activity" →
        dictGet (dental_aligner_workflow "process_message" (.ok resp) cid (some u) (some m)
          (some ccd) (some cus) now).updated_user_session k = dictGet cus k)) := by
  have hgd : dictGetD cus "current_stage" (.str "general") = .str "awaiting_dispatch_choice" :=
    dictGetD_of_get_some _ _ _ _ hstage
  have hmp : handle_message_processing (some u) (some m) (.ok resp) now ⟨ccd, cus, [], []⟩ =
      .ok (handle_dispatch_choice u (dictGet cus "active_case") (.ok resp) now ⟨ccd, cus, [], []⟩) := by
    unfold handle_message_processing
    dsimp only [Option.getD_some]
    rw [if_neg, hgd, if_neg (by decide), if_neg (by decide), if_pos rfl]
    simp [optStrTruthy, hu, hm, isEmpty_false_of_ne_nil _ hcus]
  refine ⟨?_, ?_, ?_⟩
  · intro h1
    have hdc : handle_dispatch_choice u (dictGet cus "active_case") (.ok resp) now ⟨ccd, cus, [], []⟩ =
        ⟨⟨dictSet (dictSet ccd "status" (.str "FitConfirmed_PhaseWise")) "delivery_choice_confirmed_at" (.int now),
          dictSet cus "current_stage" (.str "general"),
          [⟨some (.str u), phaseWiseConfirmMsg (dictGetD ccd "patient_name" (.str "your patient")).render⟩],
          ["schedule_phase_wise_production"]⟩, "Success", none⟩ := by
      unfold handle_dispatch_choice
      dsimp only
      rw [if_neg (by simp [hac]), if_pos h1]
      rfl
    rw [workflow_process_run _ _ _ _ _ _ _ _ (hmp.trans (congrArg Except.ok hdc))]
    refine ⟨?_, ?_, rfl⟩
    · rw [stampCase_get _ _ _ _ (by decide) (by decide),
        dictGet_dictSet_ne _ _ _ _ (by decide), dictGet_dictSet_self]
    · rw [stampSession_get _ _ _ (by decide), dictGet_dictSet_self]
  · intro h1 h2
    have hdc : handle_dispatch_choice u (dictGet cus "active_case") (.ok resp) now ⟨ccd, cus, [], []⟩ =
        ⟨⟨dictSet (dictSet ccd "status" (.str "FitConfirmed_FullCase")) "delivery_choice_confirmed_at" (.int now),
          dictSet cus "current_stage" (.str "general"),
          [⟨some (.str u), fullCaseConfirmMsg (dictGetD ccd "patient_name" (.str "your patient")).render⟩],
          ["schedule_full_case_production"]⟩, "Success", none⟩ := by
      unfold handle_dispatch_choice
      dsimp only
      rw [if_neg (by simp [hac]), if_neg (by simp [h1]), if_pos h2]
      rfl
    rw [workflow_process_run _ _ _ _ _ _ _ _ (hmp.trans (congrArg Except.ok hdc))]
    refine ⟨?_, ?_, rfl⟩
    · rw [stampCase_get _ _ _ _ (by decide) (by decide),
        dictGet_dictSet_ne _ _ _ _ (by decide), dictGet_dictSet_self]
    · rw [stampSession_get _ _ _ (by decide), dictGet_dictSet_self]
  · intro h1 h2
    have hdc : handle_dispatch_choice u (dictGet cus "active_case") (.ok resp) now ⟨ccd, cus, [], []⟩ =
        ⟨⟨ccd, cus, [⟨some (.str u), dispatchRepromptMsg⟩], []⟩, "Success", none⟩ := by
      unfold handle_dispatch_choice
      dsimp only
      rw [if_neg (by simp [hac]), if_neg (by simp [h1]), if_neg (by simp [h2])]
      rfl
    rw [workflow_process_run _ _ _ _ _ _ _ _ (hmp.trans (congrArg Except.ok hdc))]
    refine ⟨rfl, ?_, ?_⟩
    · intro k hk1 hk2
      rw [stampCase_get _ _ _ _ hk1 hk2]
    · intro k hk1
      rw [stampSession_get _ _ _ hk1]

/-- Concrete instantiation of the amended C6 theorem: the response
`"Phase-wise please, in phasewise batches"` matches PhaseWise and commits
the phase-wise status with one confirmation message. -/
theorem C6_dispatch_choice_amended_witness :
    dictGet (dental_aligner_workflow "process_message" (.ok "phasewise please") none (some "u1")
      (some "m") (some [("status", .str "AwaitingFitConfirmation"), ("patient_name", .str "Bo")])
      (some [("current_stage", .str "awaiting_dispatch_choice"), ("active_case", .str "c1")])
      9).updated_case_data "status" = some (.str "FitConfirmed_PhaseWise") ∧
    dictGet (dental_aligner_workflow "process_message" (.ok "phasewise please") none (some "u1")
      (some "m") (some [("status", .str "AwaitingFitConfirmation"), ("patient_name", .str "Bo")])
      (some [("current_stage", .str "awaiting_dispatch_choice"), ("active_case", .str "c1")])
      9).updated_user_session "current_stage" = some (.str "general") :=
  have h := (C6_dispatch_choice_amended "u1" "m" "phasewise please"
    [("status", .str "AwaitingFitConfirmation"), ("patient_name", .str "Bo")]
    [("current_stage", .str "awaiting_dispatch_choice"), ("active_case", .str "c1")]
    none 9 (by decide) (by decide) (by decide) (by decide) (by decide)).1 (by decide)
  ⟨h.1, h.2.1⟩

/-! Error results leave the handler state untouched. -/

theorem handle_production_start_error_frame (cid : Option String) (now : Int) (ctx : Ctx)
    (herr : (handle_production_start cid now ctx).status = "Error") :
    (handle_production_start cid now ctx).ctx = ctx := by
  unfold handle_production_start at herr ⊢
  dsimp only at herr ⊢
  split_ifs at herr ⊢ <;> simp_all

theorem handle_delivery_inquiry_error_frame (uid : String) (ac : Option Val) (ctx : Ctx)
    (h : HOut) (heq : handle_delivery_inquiry uid ac ctx = .ok h)
    (herr : h.status = "Error") : h.ctx = ctx := by
  unfold handle_delivery_inquiry at heq
  dsimp only at heq
  split at heq
  · cases heq; rfl
  · split at heq
    · simp at heq
    · split at heq
      · cases heq; simp at herr
      · cases heq; simp at herr

theorem handle_fit_confirmation_error_frame (uid : String) (ac : Option Val)
    (oracle : Except String String) (now : Int) (ctx : Ctx)
    (herr : (handle_fit_confirmation uid ac oracle now ctx).status = "Error") :
    (handle_fit_confirmation uid ac oracle now ctx).ctx = ctx := by
  cases oracle with
  | error e =>
    unfold handle_fit_confirmation
    dsimp only
    split_ifs <;> rfl
  | ok resp =>
    unfold handle_fit_confirmation at herr ⊢
    dsimp only at herr ⊢
    split_ifs at herr ⊢ <;> simp_all

theorem handle_dispatch_choice_error_frame (uid : String) (ac : Option Val)
    (oracle : Except String String) (now : Int) (ctx : Ctx)
    (herr : (handle_dispatch_choice uid ac oracle now ctx).status = "Error") :
    (handle_dispatch_choice uid ac oracle now ctx).ctx = ctx := by
  cases oracle with
  | error e =>
    unfold handle_dispatch_choice
    dsimp only
    split_ifs <;> rfl
  | ok resp =>
    unfold handle_dispatch_choice at herr ⊢
    dsimp only at herr ⊢
    split_ifs at herr ⊢ <;> simp_all

theorem handle_general_inquiry_error_frame (uid mb : String) (ctx : Ctx)
    (herr : (handle_general_inquiry uid mb ctx).status = "Error") :
    (handle_general_inquiry uid mb ctx).ctx = ctx := by
  exact absurd herr (by simp [handle_general_inquiry])

theorem handle_message_processing_error_frame (u m : Option String)
    (oracle : Except String String) (now : Int) (ctx : Ctx) (h : HOut)
    (heq : handle_message_processing u m oracle now ctx = .ok h)
    (herr : h.status = "Error") : h.ctx = ctx := by
  unfold handle_message_processing at heq
  split at heq
  · cases heq; rfl
  · dsimp only at heq
    split at heq
    · exact handle_delivery_inquiry_error_frame _ _ _ _ heq herr
    · split at heq
      · cases heq; exact handle_fit_confirmation_error_frame _ _ _ _ _ herr
      · split at heq
        · cases heq; exact handle_dispatch_choice_error_frame _ _ _ _ _ herr
        · split at heq
          · cases heq; exact handle_general_inquiry_error_frame _ _ _ herr
          · cases heq; simp at herr

theorem dispatchAction_error_frame (a : String) (oracle : Except String String)
    (ci u m : Option String) (now : Int) (ctx0 : Ctx) (h : HOut)
    (heq : dispatchAction a oracle ci u m now ctx0 = .ok h)
    (herr : h.status = "Error") : h.ctx = ctx0 := by
  unfold dispatchAction at heq
  split at heq
  · cases heq; exact handle_production_start_error_frame _ _ _ herr
  · split at heq
    · exact handle_message_processing_error_frame _ _ _ _ _ _ heq herr
    · cases heq; rfl

theorem run_error_frame (a : String) (oracle : Except String String)
    (ci u m : Option String) (now : Int) (ctx0 : Ctx)
    (herr : (catchHOut ctx0 (dispatchAction a oracle ci u m now ctx0)).status = "Error") :
    (catchHOut ctx0 (dispatchAction a oracle ci u m now ctx0)).ctx = ctx0 := by
  rcases heq : dispatchAction a oracle ci u m now ctx0 with e | h
  · rfl
  · rw [heq] at herr
    dsimp only [catchHOut] at herr ⊢
    exact dispatchAction_error_frame _ _ _ _ _ _ _ _ heq herr

/-- Unfolding of the workflow into its dispatch, catch and stamping
stages. -/
theorem workflow_eq (a : String) (o : Except String String) (ci u m : Option String)
    (ccd cus : Option Dict) (n : Int) :
    dental_aligner_workflow a o ci u m ccd cus n =
      ⟨stampCase a n (catchHOut ⟨ccd.getD [], cus.getD [], [], []⟩
          (dispatchAction a o ci u m n ⟨ccd.getD [], cus.getD [], [], []⟩)).ctx.case_data,
        stampSession n (catchHOut ⟨ccd.getD [], cus.getD [], [], []⟩
          (dispatchAction a o ci u m n ⟨ccd.getD [], cus.getD [], [], []⟩)).ctx.session,
        (catchHOut ⟨ccd.getD [], cus.getD [], [], []⟩
          (dispatchAction a o ci u m n ⟨ccd.getD [], cus.getD [], [], []⟩)).ctx.messages,
        (catchHOut ⟨ccd.getD [], cus.getD [], [], []⟩
          (dispatchAction a o ci u m n ⟨ccd.getD [], cus.getD [], [], []⟩)).status,
        (catchHOut ⟨ccd.getD [], cus.getD [], [], []⟩
          (dispatchAction a o ci u m n ⟨ccd.getD [], cus.getD [], [], []⟩)).error,
        (catchHOut ⟨ccd.getD [], cus.getD [], [], []⟩
          (dispatchAction a o ci u m n ⟨ccd.getD [], cus.getD [], [], []⟩)).ctx.next_actions,
        n⟩ := rfl

/-- C2 counterexample: a `process_message` call whose active case is absent
from the snapshots returns `Error` with no messages, yet the returned
session snapshot is not identical to the input — the engine still writes
the `last_activity` audit stamp on the error path. -/
theorem C2_error_stamps_session_counterexample :
    (dental_aligner_workflow "process_message" (.ok "x") none (some "u1") (some "hello") none
      (some [("current_stage", .str "awaiting_delivery"), ("active_case", .str "case-x")])
      5).status = "Error" ∧
    (dental_aligner_workflow "process_message" (.ok "x") none (some "u1") (some "hello") none
      (some [("current_stage", .str "awaiting_delivery"), ("active_case", .str "case-x")])
      5).messages_to_send = [] ∧
    dictGet (dental_aligner_workflow "process_message" (.ok "x") none (some "u1") (some "hello") none
      (some [("current_stage", .str "awaiting_delivery"), ("active_case", .str "case-x")])
      5).updated_user_session "last_activity" = some (.int 5) ∧
    dictGet [("current_stage", Val.str "awaiting_delivery"), ("active_case", Val.str "case-x")]
      "last_activity" = none := by
  decide

/-- C2 (amended): whenever the workflow returns an `Error` result — missing
identifiers, unresolvable references, an unknown action type, a classifier
failure, or an uncaught handler exception — the messages list is empty and
no case or session field changes except the audit stamps
(`last_workflow_run`, `last_action_type` on a non-empty case dict;
`last_activity` on a non-empty session dict), which every invocation
writes. -/
theorem C2_error_frame_amended (action_type : String) (oracle : Except String String)
    (cid u m : Option String) (ccd cus : Option Dict) (now : Int)
    (herr : (dental_aligner_workflow action_type oracle cid u m ccd cus now).status = "Error") :
    (dental_aligner_workflow action_type oracle cid u m ccd cus now).messages_to_send = [] ∧
    (∀ k, k ≠ "last_workflow_run" → k ≠ "last_action_type" →
      dictGet (dental_aligner_workflow action_type oracle cid u m ccd cus now).updated_case_data k =
        dictGet (ccd.getD []) k) ∧
    (∀ k, k ≠ "last_activity" →
      dictGet (dental_aligner_workflow action_type oracle cid u m ccd cus now).updated_user_session k =
        dictGet (cus.getD []) k) := by
  rw [workflow_eq] at herr ⊢
  dsimp only at herr ⊢
  have hctx := run_error_frame action_type oracle cid u m now ⟨ccd.getD [], cus.getD [], [], []⟩ herr
  rw [hctx]
  refine ⟨rfl, ?_, ?_⟩
  · intro k h1 h2
    rw [stampCase_get _ _ _ _ h1 h2]
  · intro k h1
    rw [stampSession_get _ _ _ h1]

/-- Concrete instantiation of the amended C2 theorem at the missing-case
error input: no messages and the session stage unchanged. -/
theorem C2_error_frame_amended_witness :
    (dental_aligner_workflow "process_message" (.ok "x") none (some "u1") (some "hello") none
      (some [("current_stage", .str "awaiting_delivery"), ("active_case", .str "case-x")])
      5).messages_to_send = [] ∧
    dictGet (dental_aligner_workflow "process_message" (.ok "x") none (some "u1") (some "hello") none
      (some [("current_stage", .str "awaiting_delivery"), ("active_case", .str "case-x")])
      5).updated_user_session "current_stage" =
      dictGet ((some [("current_stage", Val.str "awaiting_delivery"),
        ("active_case", Val.str "case-x")] : Option Dict).getD []) "current_stage" :=
  have h := C2_error_frame_amended "process_message" (.ok "x") none (some "u1") (some "hello")
    none (some [("current_stage", .str "awaiting_delivery"), ("active_case", .str "case-x")])
    5 (by decide)
  ⟨h.1, h.2.2 "current_stage" (by decide)⟩

/-! Which status values each handler can write, relative to the input. -/

theorem dictGet_of_getD_ne (d : Dict) (k : String) (dflt v : Val)
    (h : dictGetD d k dflt = v) (hne : v ≠ dflt) : dictGet d k = some v := by
  unfold dictGetD at h
  cases heq : dictGet d k with
  | none =>
    rw [heq] at h
    exact absurd h.symm hne
  | some w =>
    rw [heq] at h
    exact congrArg some h

theorem handle_production_start_status (cid : Option String) (now : Int) (ctx : Ctx) (b : String)
    (hb : dictGet (handle_production_start cid now ctx).ctx.case_data "status" = some (.str b)) :
    dictGet ctx.case_data "status" = some (.str b) ∨
    ∃ a, dictGet ctx.case_data "status" = some (.str a) ∧ declaredSuccessor a b = true := by
  unfold handle_production_start at hb
  dsimp only at hb
  split_ifs at hb with c0 c1 c2 c3 c4
  · exact .inl hb
  · rw [dictGet_dictSet_ne _ _ _ _ (by decide), dictGet_dictSet_self] at hb
    simp only [Option.some.injEq, Val.str.injEq] at hb
    subst hb
    exact .inr ⟨"ApprovedForProduction", c1, by decide⟩
  · rw [dictGet_dictSet_ne _ _ _ _ (by decide), dictGet_dictSet_ne _ _ _ _ (by decide),
      dictGet_dictSet_self] at hb
    simp only [Option.some.injEq, Val.str.injEq] at hb
    subst hb
    exact .inr ⟨"CasePlanningComplete", c2, by decide⟩
  · rw [dictGet_dictSet_ne _ _ _ _ (by decide), dictGet_dictSet_self] at hb
    simp only [Option.some.injEq, Val.str.injEq] at hb
    subst hb
    exact .inr ⟨"FitConfirmed_PhaseWise", c3, by decide⟩
  · rw [dictGet_dictSet_ne _ _ _ _ (by decide), dictGet_dictSet_self] at hb
    simp only [Option.some.injEq, Val.str.injEq] at hb
    subst hb
    exact .inr ⟨"FitConfirmed_FullCase", c4, by decide⟩
  · exact .inl hb

theorem handle_delivery_inquiry_status (uid : String) (ac : Option Val) (ctx : Ctx) (h : HOut)
    (heq : handle_delivery_inquiry uid ac ctx = .ok h)
    (hsrc : dictGet ctx.case_data "status" = some (.str "AwaitingDelivery")) (b : String)
    (hb : dictGet h.ctx.case_data "status" = some (.str b)) :
    dictGet ctx.case_data "status" = some (.str b) ∨
    ∃ a, dictGet ctx.case_data "status" = some (.str a) ∧ declaredSuccessor a b = true := by
  unfold handle_delivery_inquiry at heq
  dsimp only at heq
  split at heq
  · cases heq; exact .inl hb
  · split at heq
    · simp at heq
    · split at heq
      · cases heq
        rw [dictGet_dictSet_self] at hb
        simp only [Option.some.injEq, Val.str.injEq] at hb
        subst hb
        exact .inr ⟨"AwaitingDelivery", hsrc, by decide⟩
      · cases heq; exact .inl hb

theorem handle_fit_confirmation_status (uid : String) (ac : Option Val)
    (oracle : Except String String) (now : Int) (ctx : Ctx)
    (hsrc : dictGet ctx.case_data "status" = some (.str "AwaitingFitConfirmation")) (b : String)
    (hb : dictGet (handle_fit_confirmation uid ac oracle now ctx).ctx.case_data "status" = some (.str b)) :
    dictGet ctx.case_data "status" = some (.str b) ∨
    ∃ a, dictGet ctx.case_data "status" = some (.str a) ∧ declaredSuccessor a b = true := by
  cases oracle with
  | error e =>
    unfold handle_fit_confirmation at hb
    dsimp only at hb
    split_ifs at hb <;> exact .inl hb
  | ok resp =>
    unfold handle_fit_confirmation at hb
    dsimp only at hb
    split_ifs at hb with c0 cyes cno
    · exact .inl hb
    · exact .inl hb
    · rw [dictGet_dictSet_ne _ _ _ _ (by decide), dictGet_dictSet_self] at hb
      simp only [Option.some.injEq, Val.str.injEq] at hb
      subst hb
      exact .inr ⟨"AwaitingFitConfirmation", hsrc, by decide⟩
    · exact .inl hb

theorem handle_dispatch_choice_status (uid : String) (ac : Option Val)
    (oracle : Except String String) (now : Int) (ctx : Ctx)
    (hsrc : dictGet ctx.case_data "status" = some (.str "AwaitingFitConfirmation")) (b : String)
    (hb : dictGet (handle_dispatch_choice uid ac oracle now ctx).ctx.case_data "status" = some (.str b)) :
    dictGet ctx.case_data "status" = some (.str b) ∨
    ∃ a, dictGet ctx.case_data "status" = some (.str a) ∧ declaredSuccessor a b = true := by
  cases oracle with
  | error e =>
    unfold handle_dispatch_choice at hb
    dsimp only at hb
    split_ifs at hb <;> exact .inl hb
  | ok resp =>
    unfold handle_dispatch_choice at hb
    dsimp only at hb
    split_ifs at hb with c0 cpw cfc
    · exact .inl hb
    · rw [dictGet_dictSet_ne _ _ _ _ (by decide), dictGet_dictSet_self] at hb
      simp only [Option.some.injEq, Val.str.injEq] at hb
      subst hb
      exact .inr ⟨"AwaitingFitConfirmation", hsrc, by decide⟩
    · rw [dictGet_dictSet_ne _ _ _ _ (by decide), dictGet_dictSet_self] at hb
      simp only [Option.some.injEq, Val.str.injEq] at hb
      subst hb
      exact .inr ⟨"AwaitingFitConfirmation", hsrc, by decide⟩
    · exact .inl hb

theorem handle_message_processing_status (u m : Option String) (oracle : Except String String)
    (now : Int) (ctx : Ctx) (h : HOut)
    (heq : handle_message_processing u m oracle now ctx = .ok h)
    (h1 : dictGet ctx.session "current_stage" = some (.str "awaiting_delivery") →
      dictGet ctx.case_data "status" = some (.str "AwaitingDelivery"))
    (h2 : dictGet ctx.session "current_stage" = some (.str "awaiting_fit_confirmation") →
      dictGet ctx.case_data "status" = some (.str "AwaitingFitConfirmation"))
    (h3 : dictGet ctx.session "current_stage" = some (.str "awaiting_dispatch_choice") →
      dictGet ctx.case_data "status" = some (.str "AwaitingFitConfirmation"))
    (b : String) (hb : dictGet h.ctx.case_data "status" = some (.str b)) :
    dictGet ctx.case_data "status" = some (.str b) ∨
    ∃ a, dictGet ctx.case_data "status" = some (.str a) ∧ declaredSuccessor a b = true := by
  unfold handle_message_processing at heq
  split at heq
  · cases heq; exact .inl hb
  · dsimp only at heq
    split at heq
    · rename_i hst
      exact handle_delivery_inquiry_status _ _ _ _ heq
        (h1 (dictGet_of_getD_ne _ _ _ _ hst (by decide))) b hb
    · split at heq
      · rename_i hst
        cases heq
        exact handle_fit_confirmation_status _ _ _ _ _
          (h2 (dictGet_of_getD_ne _ _ _ _ hst (by decide))) b hb
      · split at heq
        · rename_i hst
          cases heq
          exact handle_dispatch_choice_status _ _ _ _ _
            (h3 (dictGet_of_getD_ne _ _ _ _ hst (by decide))) b hb
        · split at heq
          · cases heq; exact .inl hb
          · cases heq; exact .inl hb

theorem dispatchAction_status (a : String) (oracle : Except String String)
    (ci u m : Option String) (now : Int) (ctx0 : Ctx) (h : HOut)
    (heq : dispatchAction a oracle ci u m now ctx0 = .ok h)
    (h1 : dictGet ctx0.session "current_stage" = some (.str "awaiting_delivery") →
      dictGet ctx0.case_data "status" = some (.str "AwaitingDelivery"))
    (h2 : dictGet ctx0.session "current_stage" = some (.str "awaiting_fit_confirmation") →
      dictGet ctx0.case_data "status" = some (.str "AwaitingFitConfirmation"))
    (h3 : dictGet ctx0.session "current_stage" = some (.str "awaiting_dispatch_choice") →
      dictGet ctx0.case_data "status" = some (.str "AwaitingFitConfirmation"))
    (b : String) (hb : dictGet h.ctx.case_data "status" = some (.str b)) :
    dictGet ctx0.case_data "status" = some (.str b) ∨
    ∃ a2, dictGet ctx0.case_data "status" = some (.str a2) ∧ declaredSuccessor a2 b = true := by
  unfold dispatchAction at heq
  split at heq
  · cases heq; exact handle_production_start_status _ _ _ b hb
  · split at heq
    · exact handle_message_processing_status _ _ _ _ _ _ heq h1 h2 h3 b hb
    · cases heq; exact .inl hb

/-- C3 counterexample: the claim asserts monotonicity for every input
snapshot, but the delivery handler writes `AwaitingFitConfirmation` without
inspecting the case status, so a case already in `Dispatching_FullCase`
paired with a session stuck at `awaiting_delivery` is moved backward to a
status that is not a declared successor. -/
theorem C3_backward_write_counterexample :
    dictGet (dental_aligner_workflow "process_message" (.ok "x") none (some "u1") (some "m")
      (some [("status", .str "Dispatching_FullCase"), ("delivery_status", .str "delivered")])
      (some [("current_stage", .str "awaiting_delivery"), ("active_case", .str "c1")])
      3).updated_case_data "status" = some (.str "AwaitingFitConfirmation") ∧
    declaredSuccessor "Dispatching_FullCase" "AwaitingFitConfirmation" = false := by
  decide

/-- C3 (amended): for snapshots satisfying the documented Session/Case
linkage invariant — the case status matches the session stage
(`AwaitingDelivery` for `awaiting_delivery`, `AwaitingFitConfirmation` for
`awaiting_fit_confirmation` and `awaiting_dispatch_choice`) — every status
value the engine writes is either the unchanged input status or a declared
successor of it in the §4.2 state diagram; for mismatched snapshots the
handlers write the stage-determined status regardless and can move
backward. -/
theorem C3_status_monotonicity_amended (action_type : String) (oracle : Except String String)
    (cid u m : Option String) (ccd cus : Option Dict) (now : Int)
    (h1 : dictGet (cus.getD []) "current_stage" = some (.str "awaiting_delivery") →
      dictGet (ccd.getD []) "status" = some (.str "AwaitingDelivery"))
    (h2 : dictGet (cus.getD []) "current_stage" = some (.str "awaiting_fit_confirmation") →
      dictGet (ccd.getD []) "status" = some (.str "AwaitingFitConfirmation"))
    (h3 : dictGet (cus.getD []) "current_stage" = some (.str "awaiting_dispatch_choice") →
      dictGet (ccd.getD []) "status" = some (.str "AwaitingFitConfirmation"))
    (b : String)
    (hb : dictGet (dental_aligner_workflow action_type oracle cid u m ccd cus now).updated_case_data
      "status" = some (.str b)) :
    dictGet (ccd.getD []) "status" = some (.str b) ∨
    ∃ a, dictGet (ccd.getD []) "status" = some (.str a) ∧ declaredSuccessor a b = true := by
  rw [workflow_eq] at hb
  dsimp only at hb
  rw [stampCase_get _ _ _ _ (by decide) (by decide)] at hb
  rcases heq : dispatchAction action_type oracle cid u m now ⟨ccd.getD [], cus.getD [], [], []⟩
    with e | h
  · rw [heq] at hb
    exact .inl hb
  · rw [heq] at hb
    dsimp only [catchHOut] at hb
    exact dispatchAction_status _ _ _ _ _ _ _ _ heq h1 h2 h3 b hb

/-- Concrete instantiation of the amended C3 theorem: `start_production` on
`ApprovedForProduction` writes `CasePlanningComplete`, a declared
successor. -/
theorem C3_status_monotonicity_amended_witness :
    dictGet ((some [("status", Val.str "ApprovedForProduction")] : Option Dict).getD [])
      "status" = some (.str "CasePlanningComplete") ∨
    ∃ a, dictGet ((some [("status", Val.str "ApprovedForProduction")] : Option Dict).getD [])
      "status" = some (.str a) ∧ declaredSuccessor a "CasePlanningComplete" = true :=
  C3_status_monotonicity_amended "start_production" (.ok "") (some "c1") none none
    (some [("status", .str "ApprovedForProduction")]) none 0
    (by decide) (by decide) (by decide) "CasePlanningComplete" (by decide)

/-! The production action and the clock. -/

theorem stampCase_get_action (a : String) (n : Int) (d : Dict) :
    dictGet (stampCase a n d) "last_action_type" = if d.isEmpty then none else some (.str a) := by
  unfold stampCase
  cases d with
  | nil => rfl
  | cons p t =>
    rw [if_neg (by simp), if_neg (by simp), dictGet_dictSet_self]

theorem handle_production_start_now_invariance (cid : Option String) (n1 n2 : Int) (ctx : Ctx) :
    (handle_production_start cid n1 ctx).status = (handle_production_start cid n2 ctx).status ∧
    (handle_production_start cid n1 ctx).error = (handle_production_start cid n2 ctx).error ∧
    (handle_production_start cid n1 ctx).ctx.messages = (handle_production_start cid n2 ctx).ctx.messages ∧
    (handle_production_start cid n1 ctx).ctx.next_actions = (handle_production_start cid n2 ctx).ctx.next_actions ∧
    (handle_production_start cid n1 ctx).ctx.session = (handle_production_start cid n2 ctx).ctx.session ∧
    (handle_production_start cid n1 ctx).ctx.case_data.isEmpty =
      (handle_production_start cid n2 ctx).ctx.case_data.isEmpty ∧
    (∀ k, k ≠ "planning_started_at" → k ≠ "dispatched_at" → k ≠ "phase_production_started" →
      k ≠ "full_production_started" →
      dictGet (handle_production_start cid n1 ctx).ctx.case_data k =
        dictGet (handle_production_start cid n2 ctx).ctx.case_data k) := by
  unfold handle_production_start
  dsimp only
  split_ifs with c0 c1 c2 c3 c4
  · exact ⟨rfl, rfl, rfl, rfl, rfl, rfl, fun k _ _ _ _ => rfl⟩
  · refine ⟨rfl, rfl, rfl, rfl, rfl, by rw [dictSet_isEmpty, dictSet_isEmpty],
      fun k hk1 _ _ _ => ?_⟩
    rw [dictGet_dictSet_ne _ _ _ _ hk1, dictGet_dictSet_ne _ _ _ _ hk1]
  · refine ⟨rfl, rfl, rfl, rfl, rfl, by rw [dictSet_isEmpty, dictSet_isEmpty],
      fun k _ hk2 _ _ => ?_⟩
    rw [dictGet_dictSet_ne _ _ _ _ hk2, dictGet_dictSet_ne _ _ _ _ hk2]
  · refine ⟨rfl, rfl, rfl, rfl, rfl, by rw [dictSet_isEmpty, dictSet_isEmpty],
      fun k _ _ hk3 _ => ?_⟩
    rw [dictGet_dictSet_ne _ _ _ _ hk3, dictGet_dictSet_ne _ _ _ _ hk3]
  · refine ⟨rfl, rfl, rfl, rfl, rfl, by rw [dictSet_isEmpty, dictSet_isEmpty],
      fun k _ _ _ hk4 => ?_⟩
    rw [dictGet_dictSet_ne _ _ _ _ hk4, dictGet_dictSet_ne _ _ _ _ hk4]
  · exact ⟨rfl, rfl, rfl, rfl, rfl, rfl, fun k _ _ _ _ => rfl⟩

/-- C4 counterexample: `advance_production` reads the clock, so two
invocations of `start_production` on the identical Case snapshot at clock
readings 0 and 1 disagree on the timestamp fields and hence return
different results — the engine is not a pure function of its arguments
alone. -/
theorem C4_clock_dependence_counterexample :
    dictGet (dental_aligner_workflow "start_production" (.ok "") (some "c1") none none
      (some [("status", .str "ApprovedForProduction"), ("user_id", .str "w1"),
        ("patient_name", .str "Al")]) none 0).updated_case_data "planning_started_at" =
      some (.int 0) ∧
    dictGet (dental_aligner_workflow "start_production" (.ok "") (some "c1") none none
      (some [("status", .str "ApprovedForProduction"), ("user_id", .str "w1"),
        ("patient_name", .str "Al")]) none 1).updated_case_data "planning_started_at" =
      some (.int 1) ∧
    dental_aligner_workflow "start_production" (.ok "") (some "c1") none none
      (some [("status", .str "ApprovedForProduction"), ("user_id", .str "w1"),
        ("patient_name", .str "Al")]) none 0 ≠
    dental_aligner_workflow "start_production" (.ok "") (some "c1") none none
      (some [("status", .str "ApprovedForProduction"), ("user_id", .str "w1"),
        ("patient_name", .str "Al")]) none 1 := by
  decide

/-- C4 (amended): `start_production` is a pure function of the Case snapshot
and the clock reading: two invocations on the identical snapshot agree on
the status, error, messages and next actions, on every case field except
the clock-derived timestamp fields (`planning_started_at`, `dispatched_at`,
`phase_production_started`, `full_production_started`,
`last_workflow_run`), and on every session field except `last_activity`;
invocations at the same clock reading are fully identical (the oracle is
never consulted). -/
theorem C4_start_production_clock_purity_amended (oracle1 oracle2 : Except String String)
    (cid u m : Option String) (ccd cus : Option Dict) (n1 n2 : Int) :
    (dental_aligner_workflow "start_production" oracle1 cid u m ccd cus n1).status =
      (dental_aligner_workflow "start_production" oracle2 cid u m ccd cus n2).status ∧
    (dental_aligner_workflow "start_production" oracle1 cid u m ccd cus n1).error =
      (dental_aligner_workflow "start_production" oracle2 cid u m ccd cus n2).error ∧
    (dental_aligner_workflow "start_production" oracle1 cid u m ccd cus n1).messages_to_send =
      (dental_aligner_workflow "start_production" oracle2 cid u m ccd cus n2).messages_to_send ∧
    (dental_aligner_workflow "start_production" oracle1 cid u m ccd cus n1).next_actions =
      (dental_aligner_workflow "start_production" oracle2 cid u m ccd cus n2).next_actions ∧
    (∀ k, k ≠ "planning_started_at" → k ≠ "dispatched_at" → k ≠ "phase_production_started" →
      k ≠ "full_production_started" → k ≠ "last_workflow_run" →
      dictGet (dental_aligner_workflow "start_production" oracle1 cid u m ccd cus n1).updated_case_data k =
        dictGet (dental_aligner_workflow "start_production" oracle2 cid u m ccd cus n2).updated_case_data k) ∧
    (∀ k, k ≠ "last_activity" →
      dictGet (dental_aligner_workflow "start_production" oracle1 cid u m ccd cus n1).updated_user_session k =
        dictGet (dental_aligner_workflow "start_production" oracle2 cid u m ccd cus n2).updated_user_session k) ∧
    (n1 = n2 → dental_aligner_workflow "start_production" oracle1 cid u m ccd cus n1 =
      dental_aligner_workflow "start_production" oracle2 cid u m ccd cus n2) := by
  have hinv := handle_production_start_now_invariance cid n1 n2 ⟨ccd.getD [], cus.getD [], [], []⟩
  rw [workflow_start_run, workflow_start_run]
  dsimp only
  refine ⟨hinv.1, hinv.2.1, hinv.2.2.1, hinv.2.2.2.1, ?_, ?_, ?_⟩
  · intro k hk1 hk2 hk3 hk4 hk5
    by_cases hkA : k = "last_action_type"
    · subst hkA
      rw [stampCase_get_action, stampCase_get_action, hinv.2.2.2.2.2.1]
    · rw [stampCase_get _ _ _ _ hk5 hkA, stampCase_get _ _ _ _ hk5 hkA]
      exact hinv.2.2.2.2.2.2 k hk1 hk2 hk3 hk4
  · intro k hk
    rw [stampSession_get _ _ _ hk, stampSession_get _ _ _ hk, hinv.2.2.2.2.1]
  · intro hn
    subst hn
    rfl

/-- Concrete instantiation of the amended C4 theorem: two invocations at
clock readings 0 and 1 agree on the status and on the written case
status. -/
theorem C4_start_production_clock_purity_amended_witness :
    (dental_aligner_workflow "start_production" (.ok "a") (some "c1") none none
      (some [("status", .str "ApprovedForProduction")]) none 0).status =
      (dental_aligner_workflow "start_production" (.ok "b") (some "c1") none none
        (some [("status", .str "ApprovedForProduction")]) none 1).status ∧
    dictGet (dental_aligner_workflow "start_production" (.ok "a") (some "c1") none none
      (some [("status", .str "ApprovedForProduction")]) none 0).updated_case_data "status" =
      dictGet (dental_aligner_workflow "start_production" (.ok "b") (some "c1") none none
        (some [("status", .str "ApprovedForProduction")]) none 1).updated_case_data "status" :=
  have h := C4_start_production_clock_purity_amended (.ok "a") (.ok "b") (some "c1") none none
    (some [("status", .str "ApprovedForProduction")]) none 0 1
  ⟨h.1, h.2.2.2.2.1 "status" (by decide) (by decide) (by decide) (by decide) (by decide)⟩

end Aligner

